import Mathlib

/-!
Verification of the meteorite-dashboard data transformation (src/main.py).

The dashboard's data layer manipulates polars DataFrames.  We embed a
DataFrame as a list of column names together with a list of rows, where a
row is an association list from column names to optional cell values
(`none` models a polars null).  Numeric cells are rationals, so the
grams-to-kilograms division is exact, matching the specification's reading
of the arithmetic.  Fallible polars operations (looking up a missing
column, arithmetic on a non-numeric column) are modelled with `Except`.
-/

inductive Value where
  | str (s : String)
  | num (q : ℚ)
deriving DecidableEq, Repr

abbrev Cell := Option Value

abbrev Row := List (String × Cell)

structure DataFrame where
  columns : List String
  rows : List Row
deriving DecidableEq, Repr

/-- Errors that the data layer can produce.  `columnNotFound` models the
polars `ColumnNotFoundError` raised when an operation references a column
absent from the frame (the distinguished missing-required-column error the
spec calls `SchemaError`); `computeError` models arithmetic on a
non-numeric column; `noneFormat` models the Python `TypeError` raised when
`f"{None:.2f}"` formats a null aggregate.  `emptyResult` is the
`EmptyResultError` of the specification's recommended error taxonomy (§7);
the code in src/main.py never produces it. -/
inductive AppError where
  | columnNotFound (c : String)
  | computeError
  | noneFormat
  | emptyResult
deriving DecidableEq, Repr

deriving instance DecidableEq for Except

/-- Read a cell of a row; a missing key reads as null, like a polars null. -/
def getCell (r : Row) (c : String) : Cell :=
  (r.lookup c).getD none

/-- Write a cell: replace the entry in place when the column exists,
otherwise append it at the end, the way `with_columns` appends a new
column after the existing ones. -/
def setCell : Row → String → Cell → Row
  | [], c, v => [(c, v)]
  | p :: r, c, v => if p.1 = c then (c, v) :: r else p :: setCell r c v

/-- Remove a column's entry from a row (polars `drop`). -/
def dropKey (r : Row) (c : String) : Row :=
  r.filter (fun p => decide (p.1 ≠ c))

/-- The fixed source-to-display column lookup of `rename_columns`
(src/main.py lines 15-25). -/
def rename_dict : List (String × String) :=
  [("name", "Name"), ("id", "ID"), ("nametype", "Name Type"),
   ("recclass", "Classification"), ("fall", "Fall Status"), ("year", "Year"),
   ("reclat", "Latitude"), ("reclong", "Longitude"),
   ("GeoLocation", "GeoLocation")]

/-- Apply a rename mapping to one column name. -/
def renameKey (m : List (String × String)) (c : String) : String :=
  (m.lookup c).getD c

/-- polars `DataFrame.rename`: raises `ColumnNotFoundError` when a key of
the mapping is not a column of the frame, otherwise relabels columns. -/
def polarsRename (m : List (String × String)) (df : DataFrame) :
    Except AppError DataFrame :=
  match (m.map Prod.fst).find? (fun k => decide (k ∉ df.columns)) with
  | some k => .error (.columnNotFound k)
  | none => .ok ⟨df.columns.map (renameKey m),
      df.rows.map (fun r => r.map (fun p => (renameKey m p.1, p.2)))⟩

/-- `rename_columns` (src/main.py lines 14-27): rename via `rename_dict`,
restricted to the keys actually present in the frame. -/
def rename_columns (df : DataFrame) : Except AppError DataFrame :=
  polarsRename (rename_dict.filter (fun p => decide (p.1 ∈ df.columns))) df

/-- The mass-column resolution of src/main.py line 33:
`'Mass (g)' if 'Mass (g)' in df.columns else 'mass (g)'`. -/
def massColOf (df : DataFrame) : String :=
  if "Mass (g)" ∈ df.columns then "Mass (g)" else "mass (g)"

/-- polars `drop_nulls(subset=...)`: raises `ColumnNotFoundError` when a
subset column is missing, otherwise keeps the rows whose subset cells are
all non-null. -/
def dropNulls (df : DataFrame) (subset : List String) :
    Except AppError DataFrame :=
  match subset.find? (fun c => decide (c ∉ df.columns)) with
  | some c => .error (.columnNotFound c)
  | none => .ok ⟨df.columns,
      df.rows.filter (fun r => subset.all (fun c => (getCell r c).isSome))⟩

/-- The predicate of the null-drop on
`['Latitude', 'Longitude', mass_column, 'Year']` (src/main.py line 35). -/
def keepNonNull (mc : String) (r : Row) : Bool :=
  ["Latitude", "Longitude", mc, "Year"].all (fun c => (getCell r c).isSome)

/-- The predicate of `df.filter(pl.col('Year') <= current_year)`
(src/main.py line 38): a non-numeric or null Year cell compares to null
and the row is dropped. -/
def keepYear (y : ℚ) (r : Row) : Bool :=
  match getCell r "Year" with
  | some (.num q) => decide (q ≤ y)
  | _ => false

def filterYearLe (df : DataFrame) (y : ℚ) : DataFrame :=
  ⟨df.columns, df.rows.filter (keepYear y)⟩

/-- One cell of the expression `pl.col(mass_column) / 1000`: null stays
null, a number is divided exactly, and division of a string column raises
a compute error. -/
def divCell : Cell → Except AppError Cell
  | none => .ok none
  | some (.num q) => .ok (some (.num (q / 1000)))
  | some (.str _) => .error .computeError

/-- Evaluate `(pl.col(mass_column) / 1000).alias('Mass (kg)')` row by row. -/
def divRows (mc : String) : List Row → Except AppError (List Row)
  | [] => .ok []
  | r :: rs => do
    let v ← divCell (getCell r mc)
    let rest ← divRows mc rs
    pure (setCell r "Mass (kg)" v :: rest)

/-- The column list after `with_columns`: an existing column is replaced
in place, a new one is appended at the end. -/
def setColumnName (cols : List String) (c : String) : List String :=
  if c ∈ cols then cols else cols ++ [c]

/-- `df.with_columns([(pl.col(mass_column) / 1000).alias('Mass (kg)')])`
(src/main.py lines 40-42). -/
def addMassKg (mc : String) (df : DataFrame) : Except AppError DataFrame := do
  let rs ← divRows mc df.rows
  pure ⟨setColumnName df.columns "Mass (kg)", rs⟩

/-- `df.drop(mass_column)` on a frame that contains the column. -/
def dropColumn (df : DataFrame) (c : String) : DataFrame :=
  ⟨df.columns.filter (fun x => decide (x ≠ c)),
   df.rows.map (fun r => dropKey r c)⟩

/-- `process_data` (src/main.py lines 29-44), with the value of
`datetime.now().year` passed in as `current_year`. -/
def process_data (df : DataFrame) (current_year : ℚ) :
    Except AppError DataFrame := do
  let mc := massColOf df
  let d1 ← dropNulls df ["Latitude", "Longitude", mc, "Year"]
  let d2 := filterYearLe d1 current_year
  let d3 ← addMassKg mc d2
  pure (dropColumn d3 mc)

/-- The normalizer applied at src/main.py lines 48-49:
`rename_columns` followed by `process_data`. -/
def normalizeTable (df : DataFrame) (y : ℚ) : Except AppError DataFrame := do
  let d ← rename_columns df
  process_data d y

/-- A row survives `process_data` when it passes both the null-drop and
the year filter. -/
def survives (mc : String) (y : ℚ) (r : Row) : Bool :=
  keepNonNull mc r && keepYear y r

/-- The total row-level effect of the mass derivation: the value of
`Mass (kg)` written for a surviving row, as a function of its cells
(the non-numeric case cannot occur on a frame `process_data` accepts). -/
def divCellT : Cell → Cell
  | some (.num q) => some (.num (q / 1000))
  | _ => none

/-- The per-row transformation `process_data` applies to a surviving row:
add the derived `Mass (kg)` cell, then drop the mass-in-grams cell. -/
def transM (mc : String) (r : Row) : Row :=
  dropKey (setCell r "Mass (kg)" (divCellT (getCell r mc))) mc

/-! ### Concrete witness frames -/

/-- The spec's worked example row: the Zag meteorite, already renamed. -/
def rowZag : Row :=
  [("Name", some (.str "Zag")), ("Latitude", some (.num 27)),
   ("Longitude", some (.num (-3))), ("Year", some (.num 1998)),
   ("Mass (g)", some (.num 1750000))]

def dfZag : DataFrame :=
  ⟨["Name", "Latitude", "Longitude", "Year", "Mass (g)"], [rowZag]⟩

/-- The row `process_data` derives from `rowZag`. -/
def rowZagOut : Row :=
  [("Name", some (.str "Zag")), ("Latitude", some (.num 27)),
   ("Longitude", some (.num (-3))), ("Year", some (.num 1998)),
   ("Mass (kg)", some (.num (1750000 / 1000)))]

/-- The frame `process_data dfZag 2024` produces. -/
def outZag : DataFrame :=
  ⟨["Name", "Latitude", "Longitude", "Year", "Mass (kg)"], [rowZagOut]⟩

/-- A two-row frame for the order-preservation witness. -/
def rowA : Row :=
  [("Name", some (.str "A")), ("Latitude", some (.num 1)),
   ("Longitude", some (.num 2)), ("Year", some (.num 1998)),
   ("Mass (g)", some (.num 4000))]

def rowB : Row :=
  [("Name", some (.str "B")), ("Latitude", some (.num 5)),
   ("Longitude", some (.num 6)), ("Year", some (.num 2000)),
   ("Mass (g)", some (.num 9000))]

def dfTwo : DataFrame :=
  ⟨["Name", "Latitude", "Longitude", "Year", "Mass (g)"], [rowA, rowB]⟩

def outTwo : DataFrame :=
  ⟨["Name", "Latitude", "Longitude", "Year", "Mass (kg)"],
   [[("Name", some (.str "A")), ("Latitude", some (.num 1)),
     ("Longitude", some (.num 2)), ("Year", some (.num 1998)),
     ("Mass (kg)", some (.num (4000 / 1000)))],
    [("Name", some (.str "B")), ("Latitude", some (.num 5)),
     ("Longitude", some (.num 6)), ("Year", some (.num 2000)),
     ("Mass (kg)", some (.num (9000 / 1000)))]]⟩

/-- The four-column frame with no mass column at all. -/
def dfNoMass : DataFrame :=
  ⟨["Name", "Latitude", "Longitude", "Year"],
   [[("Name", some (.str "X")), ("Latitude", some (.num 1)),
     ("Longitude", some (.num 2)), ("Year", some (.num 1990))]]⟩

/-! ### Claim C9: the rename step -/

/-- The frame `rename_columns` always produces: every column present is
relabelled through the fixed lookup, all other columns are untouched. -/
def renamedFrame (df : DataFrame) : DataFrame :=
  ⟨df.columns.map
     (renameKey (rename_dict.filter (fun p => decide (p.1 ∈ df.columns)))),
   df.rows.map (fun r => r.map (fun p =>
     (renameKey (rename_dict.filter (fun q => decide (q.1 ∈ df.columns))) p.1,
      p.2)))⟩

/-- A raw CSV-style frame with lowercase source column names and the
lowercase mass spelling. -/
def dfRaw : DataFrame :=
  ⟨["name", "reclat", "reclong", "year", "mass (g)"],
   [[("name", some (.str "Zag")), ("reclat", some (.num 27)),
     ("reclong", some (.num (-3))), ("year", some (.num 1998)),
     ("mass (g)", some (.num 1750000))]]⟩

/-- The frame the normalizer produces from `dfRaw`. -/
def outRaw : DataFrame :=
  ⟨["Name", "Latitude", "Longitude", "Year", "Mass (kg)"],
   [[("Name", some (.str "Zag")), ("Latitude", some (.num 27)),
     ("Longitude", some (.num (-3))), ("Year", some (.num 1998)),
     ("Mass (kg)", some (.num (1750000 / 1000)))]]⟩

/-! ### Claim C6: top-10 heaviest -/

/-- The Mass (kg) sort key of a row, as read by
`df.sort("Mass (kg)", descending=True)` on a canonical table. -/
def massQ (r : Row) : ℚ :=
  match getCell r "Mass (kg)" with
  | some (.num q) => q
  | _ => 0

def sortedDescMass (l : List Row) : Prop :=
  l.Pairwise (fun a b => massQ b ≤ massQ a)

/-- The contract of `df.sort("Mass (kg)", descending=True)`
(src/main.py line 101): some permutation of the rows that is sorted
descending by the key.  The call does not pass `maintain_order`, whose
polars default is `False`, so the relative order of equal keys is NOT
constrained by the call. -/
def polarsSortDescMass (df out : DataFrame) : Prop :=
  out.columns = df.columns ∧ df.rows.Perm out.rows ∧ sortedDescMass out.rows

/-- `heaviest = df.sort("Mass (kg)", descending=True).head(10)`
(src/main.py line 101). -/
def heaviestRel (df out : DataFrame) : Prop :=
  ∃ s, polarsSortDescMass df s ∧ out = ⟨s.columns, s.rows.take 10⟩

/-- Rows of each mass value appear in their original relative order
(the stable-tie property the claim asserts). -/
def tiesStable (df out : DataFrame) : Prop :=
  ∀ q : ℚ, out.rows.filter (fun r => decide (massQ r = q)) =
    df.rows.filter (fun r => decide (massQ r = q))

/-- A one-row canonical frame. -/
def dfOne : DataFrame :=
  ⟨["Name", "Mass (kg)"],
   [[("Name", some (.str "A")), ("Mass (kg)", some (.num 5))]]⟩

/-- Two rows with equal Mass (kg) and different names. -/
def rT1 : Row := [("Name", some (.str "A")), ("Mass (kg)", some (.num 7))]

def rT2 : Row := [("Name", some (.str "B")), ("Mass (kg)", some (.num 7))]

def dfTie : DataFrame := ⟨["Name", "Mass (kg)"], [rT1, rT2]⟩

/-- A frame the unstable sort is allowed to return for `dfTie`: the two
equal-mass rows swapped. -/
def outTie : DataFrame := ⟨["Name", "Mass (kg)"], [rT2, rT1]⟩

/-! ### Claim C7: yearly counts -/

/-- The numeric reading of a cell, used as a sort key (on canonical tables
every Year cell is numeric, see the hypothesis of the claim theorem). -/
def cellKey : Cell → ℚ
  | some (.num q) => q
  | _ => 0

def cellLe (a b : Cell) : Prop := cellKey a ≤ cellKey b

instance : DecidableRel cellLe :=
  fun a b => inferInstanceAs (Decidable (cellKey a ≤ cellKey b))

instance : IsTotal Cell cellLe := ⟨fun a b => le_total (cellKey a) (cellKey b)⟩

instance : IsTrans Cell cellLe := ⟨fun _ _ _ h1 h2 => le_trans h1 h2⟩

def yearQ (r : Row) : ℚ := cellKey (getCell r "Year")

def countQ (r : Row) : ℚ := cellKey (getCell r "count")

/-- Pin the `BEq Cell` instance to the one induced by decidable equality,
so that counting lemmas stated over `DecidableEq` apply directly. -/
instance (priority := 2000) cellBEq : BEq Cell := instBEqOfDecidableEq

/-- The Year column of a frame, as the list of its cells. -/
def yearCells (df : DataFrame) : List Cell :=
  df.rows.map (fun r => getCell r "Year")

/-- The distinct Year values, sorted ascending — the group keys of
`group_by("Year")` after the final `sort("Year")`. -/
def yearKeys (df : DataFrame) : List Cell :=
  List.insertionSort cellLe (yearCells df).dedup

/-- One aggregated row of `agg(pl.count())`: the Year key and the number
of rows in its group. -/
def yearRow (df : DataFrame) (c : Cell) : Row :=
  [("Year", c), ("count", some (.num (((yearCells df).count c : ℕ) : ℚ)))]

/-- `yearly_counts = df.group_by("Year").agg(pl.count()).sort("Year")`
(src/main.py line 107).  The group keys are distinct, so the final sort
determines the row order completely and the computation is a function. -/
def yearly_counts (df : DataFrame) : DataFrame :=
  ⟨["Year", "count"], (yearKeys df).map (yearRow df)⟩

/-- The conjunction claim C7 asserts of the yearly-counts table: every
Year present in the table appears in the output, each output Year is
unique and numeric, the output is sorted ascending by Year, every count
is at least 1, and the counts sum to the number of rows. -/
def yearlyCountsSpec (df : DataFrame) : Prop :=
  (∀ r ∈ df.rows, ∃ ro ∈ (yearly_counts df).rows,
     getCell ro "Year" = getCell r "Year") ∧
  ((yearly_counts df).rows.map (fun ro => getCell ro "Year")).Nodup ∧
  ((yearly_counts df).rows.map yearQ).Pairwise (fun a b => a ≤ b) ∧
  (∀ ro ∈ (yearly_counts df).rows, ∃ q : ℚ,
     getCell ro "Year" = some (.num q)) ∧
  (∀ ro ∈ (yearly_counts df).rows, ∃ n : ℕ,
     getCell ro "count" = some (.num n) ∧ 1 ≤ n) ∧
  ((yearly_counts df).rows.map countQ).sum = (df.rows.length : ℚ)

/-- A three-row frame with two equal Year values. -/
def dfYears : DataFrame :=
  ⟨["Year"],
   [[("Year", some (.num 1998))],
    [("Year", some (.num 1998))],
    [("Year", some (.num 2000))]]⟩

/-! ### Claim C8: empty table behaviour of the metric cards -/

/-- The numeric values of a column, nulls skipped — what polars series
aggregations `min`/`max` operate on. -/
def colVals (df : DataFrame) (c : String) : List ℚ :=
  df.rows.filterMap (fun r =>
    match getCell r c with
    | some (.num q) => some q
    | _ => none)

/-- `df[c].min()`: `None` on an empty or all-null column. -/
def seriesMin (df : DataFrame) (c : String) : Option ℚ :=
  (colVals df c).min?

/-- `df[c].max()`: `None` on an empty or all-null column. -/
def seriesMax (df : DataFrame) (c : String) : Option ℚ :=
  (colVals df c).max?

/-- Python `f"{x}"` of a possibly-`None` value: total, prints `None`. -/
def pyFmtOpt : Option ℚ → String
  | some q => toString q
  | none => "None"

/-- Python `f"{x:.2f}"` of a possibly-`None` value: formatting `None`
with a float format spec raises `TypeError`, modelled as `noneFormat`. -/
def fmt2f : Option ℚ → Except AppError String
  | some q => .ok (toString q)
  | none => .error .noneFormat

/-- The metric-card block of src/main.py lines 54-57: the row count, the
`min - max` year range string, and the formatted maximum mass.  The year
range is built with a plain f-string (which tolerates `None`), while the
mass uses the `:.2f` format spec (which does not). -/
def metricCards (df : DataFrame) : Except AppError (ℕ × String × String) := do
  let total := df.rows.length
  let range := pyFmtOpt (seriesMin df "Year") ++ " - " ++
    pyFmtOpt (seriesMax df "Year")
  let heavy ← fmt2f (seriesMax df "Mass (kg)")
  pure (total, range, heavy)

/-- An empty canonical frame. -/
def dfEmpty : DataFrame :=
  ⟨["Name", "Latitude", "Longitude", "Year", "Mass (kg)"], []⟩

/-- A second empty frame, for the witness of the amended claim. -/
def dfEmpty2 : DataFrame := ⟨["Year", "Mass (kg)"], []⟩

/-! ### Theorems -/

-- Sanity: the spec's worked example row (1750000 g becomes 1750 kg).
example : (1750000 : ℚ) / 1000 = 1750 := by norm_num

example :
    process_data
      ⟨["Name", "Latitude", "Longitude", "Year", "Mass (g)"],
       [[("Name", some (.str "Zag")), ("Latitude", some (.num 27)),
         ("Longitude", some (.num (-3))), ("Year", some (.num 1998)),
         ("Mass (g)", some (.num 1750000))]]⟩ 2024 =
    .ok ⟨["Name", "Latitude", "Longitude", "Year", "Mass (kg)"],
       [[("Name", some (.str "Zag")), ("Latitude", some (.num 27)),
         ("Longitude", some (.num (-3))), ("Year", some (.num 1998)),
         ("Mass (kg)", some (.num (1750000 / 1000)))]]⟩ := rfl

-- Sanity: a future-dated row is dropped.
example :
    process_data
      ⟨["Latitude", "Longitude", "Year", "Mass (g)"],
       [[("Latitude", some (.num 1)), ("Longitude", some (.num 2)),
         ("Year", some (.num 2999)), ("Mass (g)", some (.num 10))]]⟩ 2024 =
    .ok ⟨["Latitude", "Longitude", "Year", "Mass (kg)"], []⟩ := by decide

/-! ### Row-level lemmas -/

theorem getCell_setCell_same (r : Row) (c : String) (v : Cell) :
    getCell (setCell r c v) c = v := by
  induction r with
  | nil => simp [setCell, getCell, List.lookup]
  | cons p r ih =>
    by_cases h : p.1 = c
    · simp [setCell, h, getCell, List.lookup]
    · have hb : (c == p.1) = false := beq_eq_false_iff_ne.mpr (Ne.symm h)
      simp only [setCell, if_neg h]
      simpa [getCell, List.lookup, hb] using ih

theorem getCell_setCell_ne (r : Row) (c c' : String) (v : Cell)
    (h : c' ≠ c) : getCell (setCell r c v) c' = getCell r c' := by
  have hb : (c' == c) = false := beq_eq_false_iff_ne.mpr h
  induction r with
  | nil => simp [setCell, getCell, List.lookup, hb]
  | cons p r ih =>
    by_cases hp : p.1 = c
    · subst hp
      simp [setCell, getCell, List.lookup, hb]
    · simp only [setCell, if_neg hp]
      cases hc : (c' == p.1) with
      | true => simp [getCell, List.lookup, hc]
      | false => simpa [getCell, List.lookup, hc] using ih

theorem getCell_dropKey_same (r : Row) (c : String) :
    getCell (dropKey r c) c = none := by
  induction r with
  | nil => simp [dropKey, getCell, List.lookup]
  | cons p r ih =>
    by_cases h : p.1 = c
    · simpa [dropKey, h] using ih
    · have hb : (c == p.1) = false := beq_eq_false_iff_ne.mpr (Ne.symm h)
      simpa [dropKey, h, getCell, List.lookup, hb] using ih

theorem getCell_dropKey_ne (r : Row) (c c' : String) (h : c' ≠ c) :
    getCell (dropKey r c) c' = getCell r c' := by
  have hb : (c' == c) = false := beq_eq_false_iff_ne.mpr h
  induction r with
  | nil => simp [dropKey]
  | cons p r ih =>
    by_cases hp : p.1 = c
    · subst hp
      simpa [dropKey, getCell, List.lookup, hb] using ih
    · cases hc : (c' == p.1) with
      | true => simp [dropKey, hp, getCell, List.lookup, hc]
      | false => simpa [dropKey, hp, getCell, List.lookup, hc] using ih

/-- The two cells `transM` touches are `Mass (kg)` and the mass source
column; every other cell is unchanged. -/
theorem getCell_transM_other (mc : String) (r : Row) (c : String)
    (h1 : c ≠ mc) (h2 : c ≠ "Mass (kg)") :
    getCell (transM mc r) c = getCell r c := by
  unfold transM
  rw [getCell_dropKey_ne _ _ _ h1, getCell_setCell_ne _ _ _ _ h2]

theorem getCell_transM_mass (mc : String) (r : Row)
    (h : mc ≠ "Mass (kg)") :
    getCell (transM mc r) "Mass (kg)" = divCellT (getCell r mc) := by
  unfold transM
  rw [getCell_dropKey_ne _ _ _ (Ne.symm h), getCell_setCell_same]

/-! ### Association-list lookup lemmas -/

theorem lookup_eq_none_of_keys {β : Type} (l : List (String × β)) (a : String)
    (h : ∀ p ∈ l, p.1 ≠ a) : l.lookup a = none := by
  induction l with
  | nil => rfl
  | cons p l ih =>
    have hpa : (a == p.1) = false := by
      simpa [beq_iff_eq] using (h p (List.mem_cons_self p l)).symm
    simp only [List.lookup, hpa]
    exact ih (fun q hq => h q (List.mem_cons_of_mem p hq))

theorem mem_of_lookup_eq_some {β : Type} (l : List (String × β)) (a : String)
    (b : β) (h : l.lookup a = some b) : (a, b) ∈ l := by
  induction l with
  | nil => simp [List.lookup] at h
  | cons p l ih =>
    by_cases hpa : a == p.1
    · have : a = p.1 := by simpa [beq_iff_eq] using hpa
      simp only [List.lookup, hpa] at h
      subst this
      obtain rfl : p.2 = b := by injection h
      simp
    · simp only [List.lookup, hpa] at h
      exact List.mem_cons_of_mem p (ih h)

theorem lookup_filter_key {β : Type} (l : List (String × β))
    (P : String → Bool) (a : String) (hP : P a = true) :
    (l.filter (fun p => P p.1)).lookup a = l.lookup a := by
  induction l with
  | nil => rfl
  | cons p l ih =>
    by_cases hpa : a == p.1
    · have ha : a = p.1 := by simpa [beq_iff_eq] using hpa
      have : P p.1 = true := ha ▸ hP
      simp [List.filter, this, List.lookup, hpa]
    · by_cases hPp : P p.1 = true
      · simpa [List.filter, hPp, List.lookup, hpa] using ih
      · simp only [List.filter, Bool.not_eq_true] at hPp ⊢
        rw [hPp]
        simpa [List.lookup, hpa] using ih

/-- A helper for locating an element `find?` must report. -/
theorem find?_of_mem {α : Type} (p : α → Bool) (l : List α) (a : α)
    (ha : a ∈ l) (hp : p a = true) : ∃ b, l.find? p = some b := by
  induction l with
  | nil => cases ha
  | cons x l ih =>
    by_cases hx : p x = true
    · exact ⟨x, by simp [List.find?, hx]⟩
    · rcases List.mem_cons.1 ha with rfl | ha'
      · exact absurd hp hx
      · obtain ⟨b, hb⟩ := ih ha'
        refine ⟨b, ?_⟩
        simp only [Bool.not_eq_true] at hx
        simp [List.find?, hx, hb]

/-! ### Characterizing a successful `process_data` run -/

theorem ok_bind {α β : Type} (a : α) (f : α → Except AppError β) :
    (Except.ok a >>= f) = f a := rfl

theorem error_bind {α β : Type} (e : AppError) (f : α → Except AppError β) :
    ((Except.error e : Except AppError α) >>= f) = Except.error e := rfl

theorem pure_eq_ok {α : Type} (a : α) :
    (pure a : Except AppError α) = Except.ok a := rfl

theorem divRows_ok (mc : String) :
    ∀ (l rs : List Row), divRows mc l = .ok rs →
      rs = l.map (fun r => setCell r "Mass (kg)" (divCellT (getCell r mc))) ∧
      ∀ r ∈ l, getCell r mc = none ∨ ∃ q : ℚ, getCell r mc = some (.num q) := by
  intro l
  induction l with
  | nil =>
    intro rs h
    obtain rfl : ([] : List Row) = rs := by
      simpa [divRows] using h
    simp
  | cons r l ih =>
    intro rs h
    cases hc : getCell r mc with
    | none =>
      rw [divRows, hc] at h
      cases hrest : divRows mc l with
      | error e => rw [hrest] at h; simp [divCell, ok_bind, error_bind] at h
      | ok rest =>
        rw [hrest] at h
        simp only [divCell, ok_bind, error_bind, pure_eq_ok] at h
        obtain rfl : setCell r "Mass (kg)" none :: rest = rs := by
          injection h
        obtain ⟨h1, h2⟩ := ih rest hrest
        refine ⟨by simp [h1, hc, divCellT], ?_⟩
        intro r' hr'
        rcases List.mem_cons.1 hr' with rfl | hr'
        · exact Or.inl hc
        · exact h2 r' hr'
    | some v =>
      cases v with
      | str s => rw [divRows, hc] at h; simp [divCell, ok_bind, error_bind] at h
      | num q =>
        rw [divRows, hc] at h
        cases hrest : divRows mc l with
        | error e => rw [hrest] at h; simp [divCell, ok_bind, error_bind] at h
        | ok rest =>
          rw [hrest] at h
          simp only [divCell, ok_bind, error_bind, pure_eq_ok] at h
          obtain rfl : setCell r "Mass (kg)" (some (.num (q / 1000))) :: rest = rs := by
            injection h
          obtain ⟨h1, h2⟩ := ih rest hrest
          refine ⟨by simp [h1, hc, divCellT], ?_⟩
          intro r' hr'
          rcases List.mem_cons.1 hr' with rfl | hr'
          · exact Or.inr ⟨q, hc⟩
          · exact h2 r' hr'

/-- Master characterization of a successful `process_data` run: the input
contained the four required columns, the output columns are the input
columns with `Mass (kg)` added and the mass source column removed, every
surviving row carries a numeric mass, and the output rows are exactly the
surviving input rows, in order, each transformed by `transM`. -/
theorem process_data_ok_spec (df : DataFrame) (y : ℚ) (out : DataFrame)
    (h : process_data df y = .ok out) :
    (∀ c ∈ ["Latitude", "Longitude", massColOf df, "Year"], c ∈ df.columns) ∧
    out.columns = (setColumnName df.columns "Mass (kg)").filter
      (fun x => decide (x ≠ massColOf df)) ∧
    (∀ r ∈ df.rows.filter (survives (massColOf df) y),
      ∃ q : ℚ, getCell r (massColOf df) = some (.num q)) ∧
    out.rows = (df.rows.filter (survives (massColOf df) y)).map
      (transM (massColOf df)) := by
  cases hdn : (["Latitude", "Longitude", massColOf df, "Year"].find?
      (fun c => decide (c ∉ df.columns))) with
  | some c =>
    rw [process_data] at h
    rw [dropNulls, hdn] at h
    simp [error_bind] at h
  | none =>
    have hcols : ∀ c ∈ ["Latitude", "Longitude", massColOf df, "Year"],
        c ∈ df.columns := by
      intro c hc
      have := List.find?_eq_none.1 hdn c hc
      simpa using this
    rw [process_data] at h
    rw [dropNulls, hdn] at h
    simp only [ok_bind] at h
    set l1 : List Row :=
      df.rows.filter (fun r =>
        ["Latitude", "Longitude", massColOf df, "Year"].all
          (fun c => (getCell r c).isSome)) with hl1
    set l2 : List Row := l1.filter (keepYear y) with hl2
    rw [addMassKg] at h
    cases hdv : divRows (massColOf df) ((filterYearLe ⟨df.columns, l1⟩ y).rows) with
    | error e =>
      rw [hdv] at h
      simp [ok_bind, error_bind] at h
    | ok rs =>
      rw [hdv] at h
      simp only [ok_bind, error_bind, pure_eq_ok] at h
      have hout : dropColumn ⟨setColumnName
          (filterYearLe ⟨df.columns, l1⟩ y).columns "Mass (kg)", rs⟩
          (massColOf df) = out := by injection h
      subst hout
      have hl2' : (filterYearLe ⟨df.columns, l1⟩ y).rows = l2 := rfl
      rw [hl2'] at hdv
      obtain ⟨hrs, hnum⟩ := divRows_ok (massColOf df) l2 rs hdv
      have hl2f : l2 = df.rows.filter (survives (massColOf df) y) := by
        rw [hl2, hl1, List.filter_filter]
        apply List.filter_congr
        intro r hr
        simp [survives, keepNonNull, Bool.and_comm]
      refine ⟨hcols, rfl, ?_, ?_⟩
      · intro r hr
        rw [← hl2f] at hr
        rcases hnum r hr with hn | hq
        · exfalso
          have hk : keepNonNull (massColOf df) r = true := by
            rw [hl2] at hr
            have := List.of_mem_filter (List.mem_of_mem_filter hr)
            exact this
          have : (getCell r (massColOf df)).isSome := by
            have := List.all_eq_true.1 hk (massColOf df) (by simp)
            simpa using this
          rw [hn] at this
          simp at this
        · exact hq
      · show rs.map (fun r => dropKey r (massColOf df)) = _
        rw [hrs, List.map_map, ← hl2f]
        rfl

/-- The resolved mass column is one of the two recognized spellings. -/
theorem massColOf_eq_or (df : DataFrame) :
    massColOf df = "Mass (g)" ∨ massColOf df = "mass (g)" := by
  unfold massColOf
  split
  · exact Or.inl rfl
  · exact Or.inr rfl

/-- The resolved mass column never collides with the other columns
`process_data` manipulates. -/
theorem massColOf_ne (df : DataFrame) :
    massColOf df ≠ "Latitude" ∧ massColOf df ≠ "Longitude" ∧
    massColOf df ≠ "Year" ∧ massColOf df ≠ "Mass (kg)" := by
  rcases massColOf_eq_or df with h | h <;> rw [h] <;>
    exact ⟨by decide, by decide, by decide, by decide⟩

/-- Claim C1: for every input table, every row of the table produced by
`process_data` has a non-null Latitude, a non-null Longitude, a non-null
Mass (kg), and a non-null Year. -/
theorem process_data_output_nonnull (df : DataFrame) (y : ℚ) (out : DataFrame)
    (h : process_data df y = .ok out) :
    ∀ r ∈ out.rows, (getCell r "Latitude").isSome ∧
      (getCell r "Longitude").isSome ∧ (getCell r "Mass (kg)").isSome ∧
      (getCell r "Year").isSome := by
  obtain ⟨-, -, hnum, hrows⟩ := process_data_ok_spec df y out h
  obtain ⟨hne1, hne2, hne3, hne4⟩ := massColOf_ne df
  intro r hr
  rw [hrows] at hr
  obtain ⟨r0, hr0, rfl⟩ := List.mem_map.1 hr
  have hsurv : survives (massColOf df) y r0 = true := List.of_mem_filter hr0
  rw [survives, Bool.and_eq_true] at hsurv
  have hkn : keepNonNull (massColOf df) r0 = true := hsurv.1
  have hLat : (getCell r0 "Latitude").isSome := by
    simpa using List.all_eq_true.1 hkn "Latitude" (by simp)
  have hLong : (getCell r0 "Longitude").isSome := by
    simpa using List.all_eq_true.1 hkn "Longitude" (by simp)
  have hYear : (getCell r0 "Year").isSome := by
    simpa using List.all_eq_true.1 hkn "Year" (by simp)
  obtain ⟨q, hq⟩ := hnum r0 hr0
  refine ⟨?_, ?_, ?_, ?_⟩
  · rw [getCell_transM_other _ _ _ (Ne.symm hne1) (by decide)]
    exact hLat
  · rw [getCell_transM_other _ _ _ (Ne.symm hne2) (by decide)]
    exact hLong
  · rw [getCell_transM_mass _ _ hne4, hq]
    simp [divCellT]
  · rw [getCell_transM_other _ _ _ (Ne.symm hne3) (by decide)]
    exact hYear

/-- Claim C2: for every input table, every row of the table produced by
`process_data` has a Year at most the current calendar year (the value of
`datetime.now().year` when `process_data` runs, here the parameter `y`). -/
theorem process_data_year_le (df : DataFrame) (y : ℚ) (out : DataFrame)
    (h : process_data df y = .ok out) :
    ∀ r ∈ out.rows, ∃ q : ℚ, getCell r "Year" = some (.num q) ∧ q ≤ y := by
  obtain ⟨-, -, -, hrows⟩ := process_data_ok_spec df y out h
  obtain ⟨-, -, hne3, -⟩ := massColOf_ne df
  intro r hr
  rw [hrows] at hr
  obtain ⟨r0, hr0, rfl⟩ := List.mem_map.1 hr
  have hsurv : survives (massColOf df) y r0 = true := List.of_mem_filter hr0
  rw [survives, Bool.and_eq_true] at hsurv
  have hky : keepYear y r0 = true := hsurv.2
  rw [getCell_transM_other _ _ _ (Ne.symm hne3) (by decide)]
  rw [keepYear] at hky
  cases hcell : getCell r0 "Year" with
  | none => rw [hcell] at hky; simp at hky
  | some v =>
    cases v with
    | str s => rw [hcell] at hky; simp at hky
    | num q =>
      rw [hcell] at hky
      exact ⟨q, rfl, of_decide_eq_true hky⟩

/-- Claim C3: for every input table, every output row of `process_data`
is the transform of one of the table's own rows, and its Mass (kg) cell
equals that source row's mass-in-grams value divided by 1000 — exactly,
as rational arithmetic. -/
theorem process_data_mass_exact (df : DataFrame) (y : ℚ) (out : DataFrame)
    (h : process_data df y = .ok out) :
    ∀ r ∈ out.rows, ∃ r0 ∈ df.rows, r = transM (massColOf df) r0 ∧
      ∃ g : ℚ, getCell r0 (massColOf df) = some (.num g) ∧
      getCell r "Mass (kg)" = some (.num (g / 1000)) := by
  obtain ⟨-, -, hnum, hrows⟩ := process_data_ok_spec df y out h
  obtain ⟨-, -, -, hne4⟩ := massColOf_ne df
  intro r hr
  rw [hrows] at hr
  obtain ⟨r0, hr0, rfl⟩ := List.mem_map.1 hr
  obtain ⟨g, hg⟩ := hnum r0 hr0
  refine ⟨r0, List.mem_of_mem_filter hr0, rfl, g, hg, ?_⟩
  rw [getCell_transM_mass _ _ hne4, hg]
  rfl

/-- Claim C10: `process_data` preserves the relative order of surviving
rows: rows that pass both filters appear in the output, transformed, in
the order they had in the input. -/
theorem process_data_order_preserving (df : DataFrame) (y : ℚ)
    (out : DataFrame) (l1 l2 l3 : List Row) (a b : Row)
    (h : process_data df y = .ok out)
    (hsplit : df.rows = l1 ++ a :: (l2 ++ b :: l3))
    (ha : survives (massColOf df) y a = true)
    (hb : survives (massColOf df) y b = true) :
    ∃ m1 m2 m3, out.rows =
      m1 ++ transM (massColOf df) a :: (m2 ++ transM (massColOf df) b :: m3) := by
  obtain ⟨-, -, -, hrows⟩ := process_data_ok_spec df y out h
  refine ⟨(l1.filter (survives (massColOf df) y)).map (transM (massColOf df)),
    (l2.filter (survives (massColOf df) y)).map (transM (massColOf df)),
    (l3.filter (survives (massColOf df) y)).map (transM (massColOf df)), ?_⟩
  rw [hrows, hsplit]
  simp [List.filter_append, List.filter_cons, ha, hb]

theorem process_data_output_nonnull_witness :
    (getCell rowZagOut "Latitude").isSome ∧
      (getCell rowZagOut "Longitude").isSome ∧
      (getCell rowZagOut "Mass (kg)").isSome ∧
      (getCell rowZagOut "Year").isSome :=
  process_data_output_nonnull dfZag 2024 outZag rfl rowZagOut
    (List.mem_cons_self _ _)

theorem process_data_year_le_witness :
    ∃ q : ℚ, getCell rowZagOut "Year" = some (.num q) ∧ q ≤ 2024 :=
  process_data_year_le dfZag 2024 outZag rfl rowZagOut
    (List.mem_cons_self _ _)

theorem process_data_mass_exact_witness :
    ∃ r0 ∈ dfZag.rows, rowZagOut = transM (massColOf dfZag) r0 ∧
      ∃ g : ℚ, getCell r0 (massColOf dfZag) = some (.num g) ∧
      getCell rowZagOut "Mass (kg)" = some (.num (g / 1000)) :=
  process_data_mass_exact dfZag 2024 outZag rfl rowZagOut
    (List.mem_cons_self _ _)

theorem process_data_order_preserving_witness :
    ∃ m1 m2 m3, outTwo.rows =
      m1 ++ transM (massColOf dfTwo) rowA ::
        (m2 ++ transM (massColOf dfTwo) rowB :: m3) :=
  process_data_order_preserving dfTwo 2024 outTwo [] [] [] rowA rowB
    rfl rfl (by decide) (by decide)

/-! ### Claim C4: missing mass column -/

/-- When the table has neither mass spelling, `process_data` stops at the
null-drop with a missing-column error. -/
theorem process_data_missing_mass_spec (df : DataFrame) (y : ℚ)
    (h1 : "Mass (g)" ∉ df.columns) (h2 : "mass (g)" ∉ df.columns) :
    ∃ c, c ∉ df.columns ∧
      process_data df y = .error (AppError.columnNotFound c) := by
  have hmc : massColOf df = "mass (g)" := by
    rw [massColOf, if_neg h1]
  obtain ⟨c, hc⟩ := find?_of_mem (fun c => decide (c ∉ df.columns))
    ["Latitude", "Longitude", massColOf df, "Year"] (massColOf df)
    (by simp) (by rw [hmc]; simpa using h2)
  have hcnot : c ∉ df.columns := by
    have := List.find?_some hc
    simpa using this
  refine ⟨c, hcnot, ?_⟩
  rw [process_data, dropNulls, hc]
  rfl

/-- Claim C4: when the table has neither `Mass (g)` nor `mass (g)`,
`process_data` fails with the distinguished missing-column error
(polars `ColumnNotFoundError`, the role the spec's `SchemaError` plays)
rather than succeeding or failing with an unclassified error. -/
theorem process_data_missing_mass (df : DataFrame) (y : ℚ)
    (h1 : "Mass (g)" ∉ df.columns) (h2 : "mass (g)" ∉ df.columns) :
    ∃ c, c ∉ df.columns ∧
      process_data df y = .error (AppError.columnNotFound c) :=
  process_data_missing_mass_spec df y h1 h2

theorem process_data_missing_mass_witness :
    ∃ c, c ∉ dfNoMass.columns ∧
      process_data dfNoMass 2024 = .error (AppError.columnNotFound c) :=
  process_data_missing_mass dfNoMass 2024 (by decide) (by decide)

theorem rename_columns_ok (df : DataFrame) :
    rename_columns df = .ok (renamedFrame df) := by
  rw [rename_columns, polarsRename]
  have hfind : ((rename_dict.filter
      (fun p => decide (p.1 ∈ df.columns))).map Prod.fst).find?
      (fun k => decide (k ∉ df.columns)) = none := by
    apply List.find?_eq_none.2
    intro k hk
    obtain ⟨p, hp, rfl⟩ := List.mem_map.1 hk
    have hmem : p.1 ∈ df.columns :=
      of_decide_eq_true (List.mem_filter.1 hp).2
    simp [hmem]
  rw [hfind]
  rfl

/-- Claim C9: `rename_columns` never fails, and it renames exactly the
columns present in the table according to the fixed lookup of
`rename_dict`, leaving all other column names unchanged. -/
theorem rename_columns_fixed_lookup (df : DataFrame) :
    ∃ out, rename_columns df = .ok out ∧
      out.columns = df.columns.map (fun c => (rename_dict.lookup c).getD c) := by
  refine ⟨renamedFrame df, rename_columns_ok df, ?_⟩
  show df.columns.map _ = _
  apply List.map_congr_left
  intro c hc
  have hlf := lookup_filter_key rename_dict
    (fun x => decide (x ∈ df.columns)) c (decide_eq_true hc)
  rw [renameKey, hlf]

/-- Transfer of membership across the rename for a name that is neither a
key nor a value of the rename lookup (such as the two mass spellings). -/
theorem mem_rename_iff (df out : DataFrame) (s : String)
    (hkey : ∀ p ∈ rename_dict, p.1 ≠ s)
    (hval : ∀ p ∈ rename_dict, p.2 ≠ s)
    (hout : rename_columns df = .ok out) :
    s ∈ out.columns ↔ s ∈ df.columns := by
  have h := (rename_columns_ok df).symm.trans hout
  have hfe : renamedFrame df = out := by injection h
  subst hfe
  show s ∈ df.columns.map
    (renameKey (rename_dict.filter (fun p => decide (p.1 ∈ df.columns)))) ↔ _
  constructor
  · intro hs
    obtain ⟨x, hx, hxs⟩ := List.mem_map.1 hs
    rw [renameKey] at hxs
    cases hl : (rename_dict.filter
        (fun p => decide (p.1 ∈ df.columns))).lookup x with
    | none =>
      rw [hl] at hxs
      obtain rfl : x = s := hxs
      exact hx
    | some v =>
      rw [hl] at hxs
      obtain rfl : v = s := hxs
      have hmem := mem_of_lookup_eq_some _ _ _ hl
      exact absurd rfl (hval (x, v) (List.mem_of_mem_filter hmem))
  · intro hs
    have hid : renameKey (rename_dict.filter
        (fun p => decide (p.1 ∈ df.columns))) s = s := by
      rw [renameKey, lookup_eq_none_of_keys]
      · rfl
      · intro p hp
        exact hkey p (List.mem_of_mem_filter hp)
    have := List.mem_map_of_mem (renameKey (rename_dict.filter
        (fun p => decide (p.1 ∈ df.columns)))) hs
    rwa [hid] at this

/-! ### Claim C5: the normalizer is not idempotent -/

theorem mem_setColumnName (cols : List String) (c x : String) :
    x ∈ setColumnName cols c ↔ x ∈ cols ∨ x = c := by
  rw [setColumnName]
  split
  · constructor
    · exact Or.inl
    · rintro (hx | rfl)
      · exact hx
      · assumption
  · simp

/-- Amended claim C5: the normalizer is not idempotent.  When the input
table does not carry both mass spellings at once, a successful run of the
normalizer leaves a table with no mass-in-grams column, so running the
normalizer again on its own output fails with a missing-column error. -/
theorem normalize_twice_fails (df : DataFrame) (y : ℚ) (out : DataFrame)
    (hnb : ¬("Mass (g)" ∈ df.columns ∧ "mass (g)" ∈ df.columns))
    (h : normalizeTable df y = .ok out) :
    ∃ c, normalizeTable out y = .error (AppError.columnNotFound c) := by
  rw [normalizeTable, rename_columns_ok df, ok_bind] at h
  obtain ⟨hcols4, hcolseq, -, -⟩ := process_data_ok_spec (renamedFrame df) y out h
  have hMg : "Mass (g)" ∈ (renamedFrame df).columns ↔ "Mass (g)" ∈ df.columns :=
    mem_rename_iff df (renamedFrame df) "Mass (g)" (by decide) (by decide)
      (rename_columns_ok df)
  have hmg : "mass (g)" ∈ (renamedFrame df).columns ↔ "mass (g)" ∈ df.columns :=
    mem_rename_iff df (renamedFrame df) "mass (g)" (by decide) (by decide)
      (rename_columns_ok df)
  have hA : "Mass (g)" ∉ out.columns ∧ "mass (g)" ∉ out.columns := by
    by_cases hM : "Mass (g)" ∈ (renamedFrame df).columns
    · have hmc : massColOf (renamedFrame df) = "Mass (g)" := by
        rw [massColOf, if_pos hM]
      have hnm : "mass (g)" ∉ (renamedFrame df).columns := by
        rw [hmg]
        intro hc
        exact hnb ⟨hMg.1 hM, hc⟩
      constructor
      · intro hc
        rw [hcolseq] at hc
        have := of_decide_eq_true (List.mem_filter.1 hc).2
        rw [hmc] at this
        exact this rfl
      · intro hc
        rw [hcolseq] at hc
        have := (List.mem_filter.1 hc).1
        rcases (mem_setColumnName _ _ _).1 this with hin | heq
        · exact hnm hin
        · exact absurd heq (by decide)
    · have hmc : massColOf (renamedFrame df) = "mass (g)" := by
        rw [massColOf, if_neg hM]
      constructor
      · intro hc
        rw [hcolseq] at hc
        have := (List.mem_filter.1 hc).1
        rcases (mem_setColumnName _ _ _).1 this with hin | heq
        · exact hM hin
        · exact absurd heq (by decide)
      · intro hc
        rw [hcolseq] at hc
        have := of_decide_eq_true (List.mem_filter.1 hc).2
        rw [hmc] at this
        exact this rfl
  have hA2 : "Mass (g)" ∉ (renamedFrame out).columns := by
    rw [mem_rename_iff out (renamedFrame out) "Mass (g)" (by decide) (by decide)
      (rename_columns_ok out)]
    exact hA.1
  have hB2 : "mass (g)" ∉ (renamedFrame out).columns := by
    rw [mem_rename_iff out (renamedFrame out) "mass (g)" (by decide) (by decide)
      (rename_columns_ok out)]
    exact hA.2
  rw [normalizeTable, rename_columns_ok out, ok_bind]
  obtain ⟨c, -, hc⟩ := process_data_missing_mass_spec (renamedFrame out) y hA2 hB2
  exact ⟨c, hc⟩

/-- Counterexample to claim C5 as stated: the first normalizer run on
`dfRaw` succeeds, but running the normalizer a second time on its own
output does not return the same table — it fails, because the
mass-in-grams column was dropped by the first run. -/
theorem normalize_twice_fails_cex :
    normalizeTable dfRaw 2024 = .ok outRaw ∧
    normalizeTable outRaw 2024 =
      .error (AppError.columnNotFound "mass (g)") :=
  ⟨rfl, rfl⟩

theorem normalize_twice_fails_witness :
    ∃ c, normalizeTable outRaw 2024 = .error (AppError.columnNotFound c) :=
  normalize_twice_fails dfRaw 2024 outRaw (by decide) rfl

/-- Amended claim C6: on a canonical table the top-10 view has
`min 10 (row count)` rows and is sorted descending by Mass (kg).
(The original claim also asserted stable tie order, which the code does
not guarantee: see the counterexample.) -/
theorem heaviest_len_sorted (df out : DataFrame)
    (_hm : ∀ r ∈ df.rows, ∃ q : ℚ, getCell r "Mass (kg)" = some (.num q))
    (h : heaviestRel df out) :
    out.rows.length = min 10 df.rows.length ∧ sortedDescMass out.rows := by
  obtain ⟨s, ⟨hcols, hperm, hsort⟩, rfl⟩ := h
  constructor
  · show (s.rows.take 10).length = _
    rw [List.length_take, hperm.length_eq]
  · exact List.Pairwise.sublist (List.take_sublist _ _) hsort

theorem heaviest_len_sorted_witness :
    dfOne.rows.length = min 10 dfOne.rows.length ∧ sortedDescMass dfOne.rows :=
  heaviest_len_sorted dfOne dfOne
    (by
      intro r hr
      have : r = [("Name", some (.str "A")), ("Mass (kg)", some (.num 5))] := by
        simpa [dfOne] using hr
      subst this
      exact ⟨5, rfl⟩)
    ⟨dfOne, ⟨rfl, List.Perm.refl _, by simp [sortedDescMass, dfOne]⟩, rfl⟩

/-- Counterexample to claim C6 as stated: `outTie` satisfies everything
the code's sort call promises for `dfTie` (permutation, sorted descending,
first 10 rows), yet its equal-mass rows are NOT in their original relative
order — the `sort` call does not request `maintain_order`, so stability is
not guaranteed. -/
theorem heaviest_stable_cex :
    (∀ r ∈ dfTie.rows, ∃ q : ℚ, getCell r "Mass (kg)" = some (.num q)) ∧
    heaviestRel dfTie outTie ∧ ¬ tiesStable dfTie outTie := by
  refine ⟨?_, ⟨outTie, ⟨rfl, ?_, ?_⟩, rfl⟩, ?_⟩
  · intro r hr
    rcases List.mem_cons.1 hr with rfl | hr2
    · exact ⟨7, rfl⟩
    · rcases List.mem_cons.1 hr2 with rfl | hr3
      · exact ⟨7, rfl⟩
      · cases hr3
  · exact List.Perm.swap rT2 rT1 []
  · rw [sortedDescMass]
    refine List.Pairwise.cons ?_ (List.pairwise_singleton _ _)
    intro b hb
    rcases List.mem_singleton.1 hb with rfl
    exact le_refl 7
  · intro hts
    have h7 := hts 7
    revert h7
    decide

theorem list_sum_natCast (l : List ℕ) :
    ((l.sum : ℕ) : ℚ) = (l.map (fun n : ℕ => (n : ℚ))).sum := by
  induction l with
  | nil => simp
  | cons a l ih => simp [ih]

theorem getCell_yearRow_year (df : DataFrame) (c : Cell) :
    getCell (yearRow df c) "Year" = c := rfl

theorem getCell_yearRow_count (df : DataFrame) (c : Cell) :
    getCell (yearRow df c) "count" =
      some (.num (((yearCells df).count c : ℕ) : ℚ)) := rfl

theorem mem_yearKeys (df : DataFrame) (c : Cell) :
    c ∈ yearKeys df ↔ c ∈ yearCells df := by
  rw [yearKeys, (List.perm_insertionSort cellLe _).mem_iff, List.mem_dedup]

/-- Claim C7: on a canonical table (numeric Year cells), the
yearly-counts computation satisfies `yearlyCountsSpec`. -/
theorem yearly_counts_correct (df : DataFrame)
    (hy : ∀ r ∈ df.rows, ∃ q : ℚ, getCell r "Year" = some (.num q)) :
    yearlyCountsSpec df := by
  have hperm : (yearKeys df).Perm (yearCells df).dedup :=
    List.perm_insertionSort cellLe _
  have hrows : (yearly_counts df).rows = (yearKeys df).map (yearRow df) := rfl
  refine ⟨?_, ?_, ?_, ?_, ?_, ?_⟩
  · intro r hr
    refine ⟨yearRow df (getCell r "Year"), ?_, getCell_yearRow_year df _⟩
    exact List.mem_map_of_mem _
      ((mem_yearKeys df _).2 (List.mem_map_of_mem _ hr))
  · have heq : (yearly_counts df).rows.map (fun ro => getCell ro "Year") =
        yearKeys df :=
      (List.map_map _ _ _).trans
        ((List.map_congr_left (fun c _ => getCell_yearRow_year df c)).trans
          (List.map_id _))
    rw [heq]
    exact hperm.nodup_iff.2 (List.nodup_dedup _)
  · have heq : (yearly_counts df).rows.map yearQ =
        (yearKeys df).map cellKey :=
      (List.map_map _ _ _).trans
        (List.map_congr_left (fun c _ => by
          show cellKey (getCell (yearRow df c) "Year") = cellKey c
          rw [getCell_yearRow_year]))
    rw [heq]
    exact List.pairwise_map.2 (List.sorted_insertionSort cellLe _)
  · intro ro hro
    rw [hrows] at hro
    obtain ⟨c, hc, rfl⟩ := List.mem_map.1 hro
    obtain ⟨r, hr, hrc⟩ := List.mem_map.1 ((mem_yearKeys df c).1 hc)
    obtain ⟨q, hq⟩ := hy r hr
    refine ⟨q, ?_⟩
    rw [getCell_yearRow_year, ← hrc, hq]
  · intro ro hro
    rw [hrows] at hro
    obtain ⟨c, hc, rfl⟩ := List.mem_map.1 hro
    refine ⟨(yearCells df).count c, getCell_yearRow_count df c, ?_⟩
    exact List.count_pos_iff.2 ((mem_yearKeys df c).1 hc)
  · have heq : (yearly_counts df).rows.map countQ =
        (yearKeys df).map (fun c => (((yearCells df).count c : ℕ) : ℚ)) :=
      (List.map_map _ _ _).trans
        (List.map_congr_left (fun c _ => by
          show cellKey (getCell (yearRow df c) "count") = _
          rw [getCell_yearRow_count]
          rfl))
    rw [heq, (hperm.map _).sum_eq]
    have h2 : ((yearCells df).dedup.map
        (fun c => (((yearCells df).count c : ℕ) : ℚ))).sum =
        ((((yearCells df).dedup.map
          (fun c => (yearCells df).count c)).sum : ℕ) : ℚ) := by
      rw [list_sum_natCast, List.map_map]
      rfl
    rw [h2, List.sum_map_count_dedup_eq_length]
    rw [yearCells, List.length_map]

theorem yearly_counts_correct_witness : yearlyCountsSpec dfYears :=
  yearly_counts_correct dfYears (by
    intro r hr
    rcases List.mem_cons.1 hr with rfl | hr2
    · exact ⟨1998, rfl⟩
    rcases List.mem_cons.1 hr2 with rfl | hr3
    · exact ⟨1998, rfl⟩
    rcases List.mem_cons.1 hr3 with rfl | hr4
    · exact ⟨2000, rfl⟩
    cases hr4)

/-- Amended claim C8: when zero rows survive filtering, the min/max
aggregations are still attempted (they return null), and the metric block
then fails with the unclassified `None`-formatting error — not with an
`EmptyResultError`, which the code never raises. -/
theorem metricCards_empty_fails (df : DataFrame) (h : df.rows = []) :
    seriesMin df "Year" = none ∧ seriesMax df "Year" = none ∧
    seriesMax df "Mass (kg)" = none ∧
    metricCards df = .error AppError.noneFormat := by
  obtain ⟨cols, rows⟩ := df
  simp only at h
  subst h
  exact ⟨rfl, rfl, rfl, rfl⟩

/-- Counterexample to claim C8 as stated: on the empty table the code
does attempt the min/max aggregations (they yield null) and then fails
with the `None`-formatting `TypeError`, which is not the distinguished
`EmptyResultError` of the spec's taxonomy. -/
theorem metricCards_empty_cex :
    metricCards dfEmpty = .error AppError.noneFormat ∧
    AppError.noneFormat ≠ AppError.emptyResult ∧
    seriesMin dfEmpty "Year" = none ∧
    seriesMax dfEmpty "Mass (kg)" = none :=
  ⟨rfl, by decide, rfl, rfl⟩

theorem metricCards_empty_fails_witness :
    seriesMin dfEmpty2 "Year" = none ∧ seriesMax dfEmpty2 "Year" = none ∧
    seriesMax dfEmpty2 "Mass (kg)" = none ∧
    metricCards dfEmpty2 = .error AppError.noneFormat :=
  metricCards_empty_fails dfEmpty2 rfl
